import Mathlib

/-!
Verification of the request-defense pipeline of the Nexi chat server.

The definitions below are a shallow embedding of the JavaScript security
modules (`server/utils/stealth-protection.js`, `server/utils/advanced-security.js`,
`server/utils/payload-scanner.js`, the DDoS-protection module and the
bot-detection module).  JavaScript strings are modelled as Lean `String`
(lists of characters), machine numbers as `Nat`/`Int`/`Rat` (floating point
division appears only in rate comparisons and token refill, where the
concrete constants make the rational model exact), `Map`/`Set` objects as
association lists, and regular-expression matching as decidable functions
over lowercased character lists (the `/i` flag is modelled by lowercasing
the subject; every pattern without `/i` in these modules contains only
caseless characters, so lowercasing the subject is faithful there too).
The payload scanner's signature regexes all carry the `/g` flag and are
long-lived shared objects, so `pattern.test` is stateful: it searches from
the regex's persistent `lastIndex`, sets `lastIndex` to the match end on
success, and resets it to 0 on failure.  That state is part of the scanner
model: each signature is an anchored-attempt matcher (leftmost match
position, with the greedy/lazy end the backtracking engine would pick),
driven by a `test` function threading the per-regex `lastIndex`.
-/

/-! ## Character and substring helpers -/

/-- JavaScript `\s` restricted to the ASCII whitespace characters. -/
def isWS (c : Char) : Bool :=
  c = ' ' || c = '\t' || c = '\n' || c = '\r'

/-- Line terminators, which JavaScript `.` does not match. -/
def isNL (c : Char) : Bool :=
  c = '\n' || c = '\r'

/-- JavaScript `\w` : `[A-Za-z0-9_]`. -/
def isWordC (c : Char) : Bool :=
  c.isAlphanum || c = '_'

/-- Lower-case hexadecimal digit, matching `[0-9a-f]` on a lowercased subject. -/
def isHexC (c : Char) : Bool :=
  c.isDigit || ('a' ≤ c && c ≤ 'f')

/-- The characters of a string, lowercased (model of matching with the `/i` flag). -/
def lcStr (s : String) : List Char :=
  s.data.map Char.toLower

/-- The backtick character. -/
def btick : Char := Char.ofNat 96

/-- The opening curly brace character. -/
def braceL : Char := Char.ofNat 123

/-- The closing curly brace character. -/
def braceR : Char := Char.ofNat 125

/-- Does predicate `k` hold of some suffix of `s` (an unanchored match position)? -/
def existsSuffix (s : List Char) (k : List Char → Bool) : Bool :=
  (List.range (s.length + 1)).any (fun i => k (s.drop i))

/-- Substring containment (`String.prototype.includes` / an unanchored literal regex). -/
def containsL (s pat : List Char) : Bool :=
  existsSuffix s (fun t => List.isPrefixOf pat t)

/-- Word boundary on the left: the previous character (last of `pre`) is not a word character. -/
def lastNonWord (pre : List Char) : Bool :=
  match pre.getLast? with
  | none => true
  | some c => !(isWordC c)

/-- Word boundary on the right: the next character (head of `l`) is not a word character. -/
def firstNonWord (l : List Char) : Bool :=
  match l with
  | [] => true
  | c :: _ => !(isWordC c)

/-! ## PayloadScanner (`server/utils/payload-scanner.js`)

Every regex of `PayloadScanner.loadSignatures` carries the `/g` flag and is
created once in the constructor, so `pattern.test(inputStr)` is stateful:
matching starts at the regex's persistent `lastIndex`, a successful test
sets `lastIndex` to the end of the match, and a failed test resets it to 0.
Each regex is embedded as an anchored-attempt matcher
`am : List Char -> Nat -> Option Nat` returning, for a given start
position, the end position of the match the backtracking engine would
produce there (lazy quantifiers take the earliest completion, greedy
quantifiers the latest; a greedy or lazy run followed by a character it
cannot consume is maximal munch, which is equivalent).  The engine's
leftmost-position search and the `lastIndex` discipline live in `testG`.
Subjects are lowercased once per scan (`/i`; the patterns without `/i`
contain only caseless characters). -/

/-- An anchored match attempt: given the subject and a start position,
the end position of the match found there, if any. -/
abbrev AM := List Char → Nat → Option Nat

/-- Anchored literal. -/
def amLit (p : List Char) : AM := fun s i =>
  if List.isPrefixOf p (s.drop i) then some (i + p.length) else none

/-- Anchored single character. -/
def amChar (c : Char) : AM := fun s i =>
  match s.drop i with
  | [] => none
  | d :: _ => if d = c then some (i + 1) else none

/-- Anchored single character from a class. -/
def amCharSet (p : Char → Bool) : AM := fun s i =>
  match s.drop i with
  | [] => none
  | d :: _ => if p d then some (i + 1) else none

/-- Anchored `\s*` (maximal munch; every use is followed by a non-space). -/
def amWsStar : AM := fun s i =>
  some (i + ((s.drop i).takeWhile isWS).length)

/-- Anchored `\s+` (maximal munch; every use is followed by a non-space). -/
def amWsPlus : AM := fun s i =>
  let k := ((s.drop i).takeWhile isWS).length
  if k = 0 then none else some (i + k)

/-- Anchored `\w+` (maximal munch; every use is final or followed by a
non-word character). -/
def amWordPlus : AM := fun s i =>
  let k := ((s.drop i).takeWhile isWordC).length
  if k = 0 then none else some (i + k)

/-- Anchored `[0-9a-f]+` on a lowercased subject (maximal munch, final). -/
def amHexPlus : AM := fun s i =>
  let k := ((s.drop i).takeWhile isHexC).length
  if k = 0 then none else some (i + k)

/-- Sequencing of anchored matchers. -/
def amSeq (m1 m2 : AM) : AM := fun s i =>
  (m1 s i).bind (fun j => m2 s j)

/-- Alternation: the engine commits to the first alternative that matches
(the alternatives in the catalogue are mutually exclusive at any position). -/
def amAlt (m1 m2 : AM) : AM := fun s i =>
  match m1 s i with
  | some e => some e
  | none => m2 s i

/-- Alternation of plain literals, first match in source order. -/
def amAltLits (ws : List (List Char)) : AM := fun s i =>
  match ws.find? (fun w => List.isPrefixOf w (s.drop i)) with
  | some w => some (i + w.length)
  | none => none

/-- Lazy `[\s\S]*?` before `m`: the smallest gap whose continuation
matches (any characters, line terminators included). -/
def amLazyGapTo (m : AM) : AM := fun s i =>
  match ((List.range (s.length + 1 - i)).map (fun d => i + d)).find?
      (fun j => (m s j).isSome) with
  | some j => m s j
  | none => none

/-- Greedy `.*` before `m`: the largest gap within the current line (no
line terminators) whose continuation matches. -/
def amGreedyDotGapTo (m : AM) : AM := fun s i =>
  let maxJ := i + ((s.drop i).takeWhile (fun c => !(isNL c))).length
  match (((List.range (maxJ + 1 - i)).map (fun d => i + d)).reverse).find?
      (fun j => (m s j).isSome) with
  | some j => m s j
  | none => none

/-- Anchored `\bW\b` for a word of word-characters: the neighbours on
both sides (when present) are non-word characters. -/
def amWordB (w : List Char) : AM := fun s i =>
  if lastNonWord (s.take i) && List.isPrefixOf w (s.drop i) &&
      firstNonWord (s.drop (i + w.length))
  then some (i + w.length) else none

/-- Regex `/<script[\s\S]*?>[\s\S]*?<\/script>/gi`. -/
def amXssScript : AM :=
  amSeq (amLit "<script".data)
    (amLazyGapTo (amSeq (amLit ">".data) (amLazyGapTo (amLit "</script>".data))))

/-- Regex `/on\w+\s*=/gi`. -/
def amXssOnAttr : AM :=
  amSeq (amLit "on".data) (amSeq amWordPlus (amSeq amWsStar (amChar '=')))

/-- Regex `/eval\s*\(/gi`. -/
def amXssEval : AM :=
  amSeq (amLit "eval".data) (amSeq amWsStar (amChar '('))

/-- Regex `/expression\s*\(/gi`. -/
def amXssExpression : AM :=
  amSeq (amLit "expression".data) (amSeq amWsStar (amChar '('))

/-- Regex `/(\bUNION\b.*\bSELECT\b)/gi`. -/
def amSqlUnionSelect : AM :=
  amSeq (amWordB "union".data) (amGreedyDotGapTo (amWordB "select".data))

/-- Regex `/(\bSELECT\b.*\bFROM\b.*\bWHERE\b)/gi`. -/
def amSqlSelectFromWhere : AM :=
  amSeq (amWordB "select".data)
    (amGreedyDotGapTo (amSeq (amWordB "from".data) (amGreedyDotGapTo (amWordB "where".data))))

/-- Regex `/(;\s*DROP\s+TABLE)/gi`. -/
def amSqlDropTable : AM :=
  amSeq (amChar ';') (amSeq amWsStar
    (amSeq (amLit "drop".data) (amSeq amWsPlus (amLit "table".data))))

/-- Regex `/(;\s*DELETE\s+FROM)/gi`. -/
def amSqlDeleteFrom : AM :=
  amSeq (amChar ';') (amSeq amWsStar
    (amSeq (amLit "delete".data) (amSeq amWsPlus (amLit "from".data))))

/-- Regex `/(\bEXEC\b|\bEXECUTE\b)\s*\(/gi`. -/
def amSqlExec : AM :=
  amSeq (amAlt (amWordB "exec".data) (amWordB "execute".data))
    (amSeq amWsStar (amChar '('))

/-- Regex `/(\bINSERT\b.*\bINTO\b.*\bVALUES\b)/gi`. -/
def amSqlInsertInto : AM :=
  amSeq (amWordB "insert".data)
    (amGreedyDotGapTo (amSeq (amWordB "into".data) (amGreedyDotGapTo (amWordB "values".data))))

/-- Regex `/(0x[0-9a-f]+)/gi`. -/
def amSqlHex : AM :=
  amSeq (amLit "0x".data) amHexPlus

/-- Regex `/(\bOR\b\s+1\s*=\s*1)/gi`. -/
def amSqlOr11 : AM :=
  amSeq (amWordB "or".data) (amSeq amWsPlus (amSeq (amChar '1')
    (amSeq amWsStar (amSeq (amChar '=') (amSeq amWsStar (amChar '1'))))))

/-- Regex `/(\bAND\b\s+1\s*=\s*1)/gi`. -/
def amSqlAnd11 : AM :=
  amSeq (amWordB "and".data) (amSeq amWsPlus (amSeq (amChar '1')
    (amSeq amWsStar (amSeq (amChar '=') (amSeq amWsStar (amChar '1'))))))

/-- Regex `/\{\s*\$.*\}/g`. -/
def amNoSqlBrace : AM :=
  amSeq (amChar braceL) (amSeq amWsStar
    (amSeq (amChar '$') (amGreedyDotGapTo (amChar braceR))))

/-- The command words of the shell-command signature, in source order. -/
def shellWords : List (List Char) :=
  ["ls".data, "cat".data, "wget".data, "curl".data, "nc".data,
   "bash".data, "sh".data, "cmd".data, "powershell".data]

/-- Regex `/[;&|\x60]\s*(ls|cat|wget|curl|nc|bash|sh|cmd|powershell)/gi`. -/
def amCmdShell : AM :=
  amSeq (amCharSet (fun c => c = ';' || c = '&' || c = '|' || c = btick))
    (amSeq amWsStar (amAltLits shellWords))

/-- Regex `/\$\(.*\)/g`. -/
def amCmdSubst : AM :=
  amSeq (amLit "$(".data) (amGreedyDotGapTo (amChar ')'))

/-- Regex matching a pair of backticks with a greedy same-line gap. -/
def amCmdBacktick : AM :=
  amSeq (amChar btick) (amGreedyDotGapTo (amChar btick))

/-- Regex `/\|\s*\w+/g`. -/
def amCmdPipe : AM :=
  amSeq (amChar '|') (amSeq amWsStar amWordPlus)

/-- Regex `/&\w+;/g`. -/
def amXmlEntityRef : AM :=
  amSeq (amChar '&') (amSeq amWordPlus (amChar ';'))

/-- Regex `/\.\.[\/\\]/g`. -/
def amTraversalDots : AM :=
  amSeq (amLit "..".data) (amCharSet (fun c => c = '/' || c = '\\'))

/-- Regex `/%2e%2e[\/\\]/gi`. -/
def amTraversalEnc : AM :=
  amSeq (amLit "%2e%2e".data) (amCharSet (fun c => c = '/' || c = '\\'))

/-- One attack signature: its category, the regex source text, and its
anchored-attempt matcher.  The regex object's mutable `lastIndex` lives in
the scanner state, not here. -/
structure Sig where
  cat : String
  src : String
  am : AM

/-- A signature whose regex is a plain (caseless) literal. -/
def litSig (cat src : String) (pat : String) : Sig :=
  ⟨cat, src, amLit pat.data⟩

/-- A signature with a bespoke matcher. -/
def mkSig (cat src : String) (m : AM) : Sig :=
  ⟨cat, src, m⟩

/-- The signature catalogue of `PayloadScanner.loadSignatures`, flattened in
the source's category and pattern order (`Object.keys` preserves insertion
order). -/
def signatures : List Sig :=
  [ mkSig "xss" "/<script[\\s\\S]*?>[\\s\\S]*?<\\/script>/gi" amXssScript,
    litSig "xss" "/javascript:/gi" "javascript:",
    mkSig "xss" "/on\\w+\\s*=/gi" amXssOnAttr,
    litSig "xss" "/<iframe/gi" "<iframe",
    mkSig "xss" "/eval\\s*\\(/gi" amXssEval,
    mkSig "xss" "/expression\\s*\\(/gi" amXssExpression,
    litSig "xss" "/vbscript:/gi" "vbscript:",
    litSig "xss" "/data:text\\/html/gi" "data:text/html",
    litSig "xss" "/<embed/gi" "<embed",
    litSig "xss" "/<object/gi" "<object",
    mkSig "sql" "/(\\bUNION\\b.*\\bSELECT\\b)/gi" amSqlUnionSelect,
    mkSig "sql" "/(\\bSELECT\\b.*\\bFROM\\b.*\\bWHERE\\b)/gi" amSqlSelectFromWhere,
    mkSig "sql" "/(;\\s*DROP\\s+TABLE)/gi" amSqlDropTable,
    mkSig "sql" "/(;\\s*DELETE\\s+FROM)/gi" amSqlDeleteFrom,
    mkSig "sql" "/(\\bEXEC\\b|\\bEXECUTE\\b)\\s*\\(/gi" amSqlExec,
    mkSig "sql" "/(\\bINSERT\\b.*\\bINTO\\b.*\\bVALUES\\b)/gi" amSqlInsertInto,
    mkSig "sql" "/(0x[0-9a-f]+)/gi" amSqlHex,
    mkSig "sql" "/(\\bOR\\b\\s+1\\s*=\\s*1)/gi" amSqlOr11,
    mkSig "sql" "/(\\bAND\\b\\s+1\\s*=\\s*1)/gi" amSqlAnd11,
    litSig "nosql" "/\\$where/gi" "$where",
    litSig "nosql" "/\\$ne/gi" "$ne",
    litSig "nosql" "/\\$gt/gi" "$gt",
    litSig "nosql" "/\\$regex/gi" "$regex",
    mkSig "nosql" "/\\\x7b\\s*\\$.*\\\x7d/g" amNoSqlBrace,
    mkSig "command" "/[;&|\x60]\\s*(ls|cat|wget|curl|nc|bash|sh|cmd|powershell)/gi" amCmdShell,
    mkSig "command" "/\\$\\(.*\\)/g" amCmdSubst,
    mkSig "command" "/\x60.*\x60/g" amCmdBacktick,
    mkSig "command" "/\\|\\s*\\w+/g" amCmdPipe,
    litSig "ldap" "/\\(\\|/g" "(|",
    litSig "ldap" "/\\(&/g" "(&",
    litSig "ldap" "/\\(!/g" "(!",
    litSig "ldap" "/\\*\\)/g" "*)",
    litSig "xml" "/<!ENTITY/gi" "<!entity",
    litSig "xml" "/<!DOCTYPE/gi" "<!doctype",
    litSig "xml" "/<!\\[CDATA\\[/gi" "<![cdata[",
    mkSig "xml" "/&\\w+;/g" amXmlEntityRef,
    mkSig "traversal" "/\\.\\.[\\/\\\\]/g" amTraversalDots,
    mkSig "traversal" "/%2e%2e[\\/\\\\]/gi" amTraversalEnc,
    litSig "traversal" "/\\.\\.%2f/gi" "..%2f",
    litSig "traversal" "/\\.\\.%5c/gi" "..%5c",
    litSig "ssrf" "/file:\\/\\//gi" "file://",
    litSig "ssrf" "/gopher:\\/\\//gi" "gopher://",
    litSig "ssrf" "/dict:\\/\\//gi" "dict://",
    litSig "ssrf" "/localhost/gi" "localhost",
    litSig "ssrf" "/127\\.0\\.0\\.1/g" "127.0.0.1",
    litSig "ssrf" "/0\\.0\\.0\\.0/g" "0.0.0.0",
    litSig "ssrf" "/169\\.254\\./g" "169.254." ]

/-- `pattern.test(s)` on a `/g` regex whose `lastIndex` is `li`: search the
positions from `li` upward for a match attempt that succeeds; on success
report the match end as the new `lastIndex`, on failure (including
`li > s.length`) reset it to 0. -/
def testG (m : AM) (s : List Char) (li : Nat) : Bool × Nat :=
  match ((List.range (s.length + 1 - li)).map (fun d => li + d)).find?
      (fun i => (m s i).isSome) with
  | some i =>
    match m s i with
    | some e => (true, e)
    | none => (false, 0)
  | none => (false, 0)

/-- The scan result (`{malicious, findings, confidence}`); a finding is the
pair of its signature category and regex source. -/
structure ScanRes where
  malicious : Bool
  findings : List (String × String)
  confidence : ℚ
  deriving DecidableEq

/-- `PayloadScanner.calculateConfidence`. -/
def calcConfidence (n : Nat) : ℚ :=
  if n = 0 then 0 else if 3 ≤ n then 1 else (2 / 5) * n

/-- Run every signature against the lowercased subject, in catalogue order,
each with its own current `lastIndex`: collect the findings and the updated
`lastIndex` of every regex. -/
def runSigs (lc : List Char) : List (Sig × Nat) → List (String × String) × List Nat
  | [] => ([], [])
  | p :: rest =>
    let r := testG p.1.am lc p.2
    let o := runSigs lc rest
    ((if r.1 then [(p.1.cat, p.1.src)] else []) ++ o.1, r.2 :: o.2)

/-- One cache-missing execution of the signature loop of
`PayloadScanner.scan` on a string input: the scan result together with the
regex states it leaves behind. -/
def scanStateful (lis : List Nat) (input : String) : ScanRes × List Nat :=
  let o := runSigs (lcStr input) (signatures.zip lis)
  ({ malicious := !o.1.isEmpty
     findings := o.1
     confidence := calcConfidence o.1.length }, o.2)

/-- The scanner's cache: content key (the hash is injective on contents, so
the string itself serves as the key), insertion time, cached result. -/
abbrev ScanCache := List (String × Nat × ScanRes)

/-- `Map.prototype.get` on the cache. -/
def cacheLookup (σ : ScanCache) (k : String) : Option (Nat × ScanRes) :=
  match σ.find? (fun e => e.1 = k) with
  | none => none
  | some e => some e.2

/-- `Map.prototype.set` on the cache (replace any entry with the same key). -/
def cacheSet (σ : ScanCache) (k : String) (t : Nat) (r : ScanRes) : ScanCache :=
  σ.filter (fun e => e.1 ≠ k) ++ [(k, t, r)]

/-- The cache TTL of 5 minutes (`this.cacheTimeout = 300000`). -/
def cacheTTL : Nat := 300000

/-- The scanner's whole mutable state: the result cache and the `lastIndex`
of each signature regex, in catalogue order. -/
structure ScanSt where
  cache : ScanCache
  lis : List Nat

/-- The state built by the constructor: empty cache, every `lastIndex` 0. -/
def initScanSt : ScanSt :=
  ⟨[], List.replicate signatures.length 0⟩

/-- `PayloadScanner.scan` on a string input: a falsy (empty) input returns
the clean result without touching cache or regexes; a fresh cache entry is
returned as-is (the regexes do not run, so their `lastIndex` is untouched);
an absent or expired entry makes the stateful signature loop run, its
result is stored, and the regex states advance. -/
def scanC (st : ScanSt) (input : String) (now : Nat) : ScanRes × ScanSt :=
  if input = "" then (⟨false, [], 0⟩, st)
  else
    match cacheLookup st.cache input with
    | some (t, r) =>
      if now - t < cacheTTL then (r, st)
      else
        let o := scanStateful st.lis input
        (o.1, ⟨cacheSet st.cache input now o.1, o.2⟩)
    | none =>
      let o := scanStateful st.lis input
      (o.1, ⟨cacheSet st.cache input now o.1, o.2⟩)

/-- Run a sequence of scans (input, time) from the scanner's initial state. -/
def runScans (ops : List (String × Nat)) : ScanSt :=
  ops.foldl (fun st p => (scanC st p.1 p.2).2) initScanSt

/-! ## Identity extraction (`getIP`, identical in HoneyPot, BehaviorAnalyzer,
RequestFingerprint, ThreatDetector and DDoSProtection) -/

/-- Drop leading and trailing whitespace (JavaScript `String.prototype.trim`
restricted to ASCII whitespace). -/
def trimChars (l : List Char) : List Char :=
  ((l.dropWhile isWS).reverse.dropWhile isWS).reverse

/-- The characters before the first comma (`split(',')[0]`). -/
def beforeComma (l : List Char) : List Char :=
  l.takeWhile (fun c => c ≠ ',')

/-- `h.split(',')[0].trim()` : the trimmed first entry of a forwarded-for chain. -/
def fwdFirst (h : String) : String :=
  ⟨trimChars (beforeComma h.data)⟩

/-- JavaScript `a || b` on an optional string: an absent or empty (falsy)
left operand yields the right operand. -/
def jsOr (o : Option String) (d : String) : String :=
  match o with
  | none => d
  | some s => if s = "" then d else s

/-- `getIP(req)` : `req.headers['x-forwarded-for']?.split(',')[0]?.trim() ||
req.headers['x-real-ip'] || req.connection?.remoteAddress || 'unknown'`. -/
def getIP (xff xrip remote : Option String) : String :=
  jsOr (xff.map fwdFirst) (jsOr xrip (jsOr remote "unknown"))

/-- Spec-side normalisation: an absent or empty value is no value. -/
def nonEmptyVal (o : Option String) : Option String :=
  match o with
  | none => none
  | some s => if s = "" then none else some s

/-- Spec-side extractor: the first non-empty value of the list, else the default. -/
def firstNonEmpty (l : List (Option String)) (d : String) : String :=
  ((l.filterMap nonEmptyVal).head?).getD d

/-! ## DDoSProtection (DDoS-protection module of the repository)

The per-identity slice of `DDoSProtection`: the `requests` map entry (a list
of timestamps) and the `banned` map entry for one identity; the whitelist of
the deployed instance is empty, and identities are independent keys. -/

/-- Configuration of `DDoSProtection` (`windowMs`, `maxRequests`, `banDuration`). -/
structure DCfg where
  windowMs : Nat
  maxRequests : Nat
  banDuration : Nat

/-- Per-identity state: recorded request timestamps and the ban expiry, if any. -/
structure DState where
  requests : List Nat
  banned : Option Nat
  deriving DecidableEq

/-- Result of `DDoSProtection.check` (`retryAfter` in seconds). -/
structure DRes where
  allowed : Bool
  retryAfter : Option Nat
  remaining : Option Nat
  deriving DecidableEq

/-- `isBanned`: lazily expires a ban whose time has passed (strict comparison
`Date.now() > banUntil`). -/
def isBannedStep (st : DState) (now : Nat) : Bool × DState :=
  match st.banned with
  | none => (false, st)
  | some u => if u < now then (false, { st with banned := none }) else (true, st)

/-- `getBanTimeRemaining`: `Math.max(0, Math.ceil((banUntil - now) / 1000))`. -/
def banTimeRemaining (st : DState) (now : Nat) : Nat :=
  match st.banned with
  | none => 0
  | some u => (u - now + 999) / 1000

/-- `DDoSProtection.check` for one identity (empty whitelist): ban check, then
sliding-window filter of recorded timestamps; reaching `maxRequests` valid
requests bans the identity for `banDuration` and reports `banDuration / 1000`
seconds, otherwise the call is recorded and allowed. -/
def ddosCheck (cfg : DCfg) (st : DState) (now : Nat) : DRes × DState :=
  match isBannedStep st now with
  | (true, st1) =>
    ({ allowed := false, retryAfter := some (banTimeRemaining st1 now), remaining := none }, st1)
  | (false, st1) =>
    let valid := st1.requests.filter (fun ts => decide (now - ts < cfg.windowMs))
    if cfg.maxRequests ≤ valid.length then
      ({ allowed := false, retryAfter := some (cfg.banDuration / 1000), remaining := none },
       { st1 with banned := some (now + cfg.banDuration) })
    else
      ({ allowed := true, retryAfter := none,
         remaining := some (cfg.maxRequests - (valid.length + 1)) },
       { st1 with requests := valid ++ [now] })

/-- The limiter configuration of the claim: limit 5, window 60000 ms, and the
constructor's default ban duration of 3600000 ms. -/
def dCfg5 : DCfg := ⟨60000, 5, 3600000⟩

/-- The empty per-identity state (identity never seen, not banned). -/
def dInit : DState := ⟨[], none⟩

/-! ## ThreatDetector (`server/utils/advanced-security.js`) -/

/-- The inputs `assess(req, analysis)` reads: the three analysis pattern flags,
the user-agent and the presence of the `accept` / `accept-language` headers. -/
structure TSig where
  highFrequency : Bool
  scanning : Bool
  bruteForce : Bool
  ua : String
  hasAccept : Bool
  hasAcceptLanguage : Bool

/-- The malicious user-agent substrings of `ThreatDetector.isMaliciousUA`
(each regex is a caseless literal). -/
def maliciousUAList : List String :=
  ["sqlmap", "nikto", "nmap", "masscan", "nessus",
   "openvas", "acunetix", "burp", "metasploit", "havij"]

/-- `ThreatDetector.isMaliciousUA`. -/
def isMaliciousUA (ua : String) : Bool :=
  maliciousUAList.any (fun p => containsL (lcStr ua) p.data)

/-- The score of a single `assess` call, summed in source order. -/
def assessScore (sig : TSig) : Nat :=
  (if sig.highFrequency then 5 else 0) +
  (if sig.scanning then 7 else 0) +
  (if sig.bruteForce then 10 else 0) +
  (if isMaliciousUA sig.ua then 8 else 0) +
  (if !sig.hasAccept || !sig.hasAcceptLanguage then 3 else 0)

/-- The per-identity record of `this.threats`: cumulative score and the
scores of the recorded incidents. -/
structure TRec where
  score : Nat
  incidents : List Nat
  deriving DecidableEq

/-- The verdict returned by `assess` (`{score, reasons, blocked}`; the reasons
list is determined by the score components and omitted here). -/
structure TVerdict where
  score : Nat
  blocked : Bool
  deriving DecidableEq

/-- `ThreatDetector.assess` for one identity: computes the current call's
score, accumulates it into the persisted record when positive, and returns
`blocked` as `score >= this.threshold` with `threshold = 10`. -/
def assess (st : Option TRec) (sig : TSig) : TVerdict × Option TRec :=
  let score := assessScore sig
  let st2 :=
    if 0 < score then
      match st with
      | none => some ⟨score, [score]⟩
      | some r => some ⟨r.score + score, r.incidents ++ [score]⟩
    else st
  ({ score := score, blocked := decide (10 ≤ score) }, st2)

/-- The cumulative score persisted for an identity (`getThreatLevel`). -/
def cumScore (st : Option TRec) : Nat :=
  match st with
  | none => 0
  | some r => r.score

/-! ## Bot user-agent matching (`BehaviorAnalyzer` bot pattern,
`stealth-protection.js`) -/

/-- The user-agent substrings of the regex `/bot|crawler|spider|scraper/i`. -/
def botUAPatterns : List String := ["bot", "crawler", "spider", "scraper"]

/-- Case-insensitive match of the user-agent against the bot pattern list. -/
def matchesBotList (u : String) : Bool :=
  botUAPatterns.any (fun p => containsL (lcStr u) p.data)

/-- The bot user-agent matcher (`botPattern` of
`BehaviorAnalyzer.initPatterns`): `const ua = profile.userAgent || '';
return !ua || ua.length < 10 || /bot|crawler|spider|scraper/i.test(ua)`. -/
def matchBotUserAgent (ua : Option String) : Bool :=
  let u := ua.getD ""
  u = "" || u.length < 10 || matchesBotList u

/-! ## Bounded request history (`BehaviorAnalyzer.analyze` and
`RequestFingerprint.track` keep the most recent 100 records) -/

/-- One request record (`{time, path, method}`). -/
structure ReqRecord where
  time : Nat
  path : String
  method : String
  deriving DecidableEq

/-- Append one record, then `if (requests.length > 100) requests =
requests.slice(-100)` (keep the last 100). -/
def pushTrim (h : List ReqRecord) (r : ReqRecord) : List ReqRecord :=
  let l := h ++ [r]
  if 100 < l.length then l.drop (l.length - 100) else l

/-- The stored history after observing the requests `rs` in order, starting
from the fresh profile's empty history. -/
def histFold (rs : List ReqRecord) : List ReqRecord :=
  rs.foldl pushTrim []

/-! ## AdaptiveProtection (`stealth-protection.js`) -/

/-- The rolling tally `this.metrics`. -/
structure AMetrics where
  total : Nat
  blocked : Nat
  suspicious : Nat
  deriving DecidableEq

/-- The adaptive-protection state: the global threat level and the tally. -/
structure AState where
  threatLevel : Int
  metrics : AMetrics
  deriving DecidableEq

/-- The state at construction time (`threatLevel = 0`, zero tally). -/
def aInit : AState := ⟨0, ⟨0, 0, 0⟩⟩

/-- `AdaptiveProtection.adjust`: a no-op on an empty tally; otherwise raise
the level by one (capped at 10) when `blockRate > 0.1` or
`suspiciousRate > 0.2`, lower it by one (floored at 0) when
`blockRate < 0.01` and `suspiciousRate < 0.05`, then reset the tally.  The
floating-point rate comparisons are exact rational comparisons here
(`blocked/total > 1/10` iff `10*blocked > total`, and so on). -/
def adjust (s : AState) : AState :=
  if s.metrics.total = 0 then s
  else
    let lvl :=
      if s.metrics.total < 10 * s.metrics.blocked ∨ s.metrics.total < 5 * s.metrics.suspicious then
        min 10 (s.threatLevel + 1)
      else if 100 * s.metrics.blocked < s.metrics.total ∧
              20 * s.metrics.suspicious < s.metrics.total then
        max 0 (s.threatLevel - 1)
      else s.threatLevel
    { threatLevel := lvl, metrics := ⟨0, 0, 0⟩ }

/-- The argument of `recordMetric`. -/
inductive MetricKind
  | blocked
  | suspicious
  | normal

/-- `AdaptiveProtection.recordMetric`: always bumps the total, and the
matching counter for `'blocked'` / `'suspicious'`. -/
def recordMetric (s : AState) (k : MetricKind) : AState :=
  { s with metrics :=
    { total := s.metrics.total + 1
      blocked := s.metrics.blocked + (match k with | MetricKind.blocked => 1 | _ => 0)
      suspicious := s.metrics.suspicious + (match k with | MetricKind.suspicious => 1 | _ => 0) } }

/-- The operations that touch the adaptive-protection state: the periodic
adjustment tick and metric recording. -/
inductive AOp
  | tick
  | record (k : MetricKind)

/-- One state transition. -/
def aStep (s : AState) (op : AOp) : AState :=
  match op with
  | AOp.tick => adjust s
  | AOp.record k => recordMetric s k

/-- The state after an arbitrary operation sequence from startup. -/
def runA (ops : List AOp) : AState :=
  ops.foldl aStep aInit

/-! ## TrafficShaper (DDoS-protection module): token bucket -/

/-- One token bucket (`{tokens, lastRefill}`); token balances are modelled as
rationals (the claim's constants make the float arithmetic exact). -/
structure Bucket where
  tokens : ℚ
  lastRefill : Nat
  deriving DecidableEq

/-- Result of `TrafficShaper.check` (`retryAfter` in seconds, rounded up). -/
structure ShapeRes where
  allowed : Bool
  retryAfter : Option Int
  deriving DecidableEq

/-- Lazy proportional refill: `tokens = min(bandwidth, tokens +
(elapsed / 1000) * bandwidth)`. -/
def refillTokens (bandwidth : ℚ) (b : Bucket) (now : Nat) : ℚ :=
  min bandwidth (b.tokens + (((now - b.lastRefill : Nat) : ℚ) / 1000) * bandwidth)

/-- `TrafficShaper.check` for one identity: a missing bucket is created full;
the bucket is refilled and stamped, then `size` tokens are consumed if the
balance suffices, else the request is denied with
`Math.ceil((size - tokens) / bandwidth)` seconds to wait. -/
def shaperCheck (bandwidth : ℚ) (st : Option Bucket) (now : Nat) (size : ℚ) :
    ShapeRes × Bucket :=
  let b := st.getD ⟨bandwidth, now⟩
  let tokens := refillTokens bandwidth b now
  if tokens < size then
    ({ allowed := false, retryAfter := some ⌈(size - tokens) / bandwidth⌉ },
     { tokens := tokens, lastRefill := now })
  else
    ({ allowed := true, retryAfter := none },
     { tokens := tokens - size, lastRefill := now })

/-! ## BehaviorAnalyzer predicates (`stealth-protection.js`) -/

/-- The per-identity profile consulted by the suspicious-pattern predicates. -/
structure BProfile where
  requests : List ReqRecord
  userAgent : Option String
  hasAccept : Bool
  hasAcceptLanguage : Bool

/-- `scanning`: `uniquePaths.size > 20 && profile.requests.length > 30`. -/
def scanningPred (p : BProfile) : Bool :=
  20 < (p.requests.map (fun r => r.path)).dedup.length && 30 < p.requests.length

/-- `methodProbing`: more than 4 distinct HTTP methods. -/
def methodProbingPred (p : BProfile) : Bool :=
  4 < (p.requests.map (fun r => r.method)).dedup.length

/-- `botPattern` applied to the profile's stored user-agent. -/
def botPatternPred (p : BProfile) : Bool :=
  matchBotUserAgent p.userAgent

/-- `missingHeaders`: `!profile.hasAccept || !profile.hasAcceptLanguage`. -/
def missingHeadersPred (p : BProfile) : Bool :=
  !p.hasAccept || !p.hasAcceptLanguage

/-- The inter-arrival gaps `requests[i].time - requests[i-1].time`. -/
def timeGaps (p : BProfile) : List Int :=
  List.zipWith (fun a b => (a : Int) - (b : Int))
    ((p.requests.map (fun r => r.time)).tail) (p.requests.map (fun r => r.time))

/-- `timePattern`: with at least 5 requests, mean gap below 100 ms (the float
mean comparison `sum/len < 100` is the exact integer comparison
`sum < 100 * len`). -/
def timePatternPred (p : BProfile) : Bool :=
  if p.requests.length < 5 then false
  else decide ((timeGaps p).sum < 100 * ((timeGaps p).length : Int))

/-- The suspicion score: the number of triggered predicates, in source order. -/
def analyzeScore (p : BProfile) : Nat :=
  (if scanningPred p then 1 else 0) +
  (if methodProbingPred p then 1 else 0) +
  (if botPatternPred p then 1 else 0) +
  (if missingHeadersPred p then 1 else 0) +
  (if timePatternPred p then 1 else 0)

/-! ## HoneyPot (`stealth-protection.js`) -/

/-- The trap paths of `HoneyPot.initTraps`, in insertion order.  (The check
lowercases the request path but not the trap, so the mixed-case
`/phpMyAdmin` entry can never fire — preserved as in the source.) -/
def trapsList : List String :=
  ["/admin", "/.env", "/config", "/backup", "/.git", "/phpMyAdmin",
   "/wp-admin", "/administrator", "/.aws", "/api/admin", "/api/config",
   "/api/debug", "/api/test", "/.htaccess", "/web.config"]

/-- The honeypot state: the set of trapped identities and the per-trap hit
counters. -/
structure HPState where
  trapped : List String
  hits : List (String × Nat)

/-- The state built by the constructor: nobody trapped, all counters zero. -/
def hpInit : HPState :=
  ⟨[], trapsList.map (fun t => (t, 0))⟩

/-- Does the lowercased path contain some trap path
(`path.toLowerCase().includes(trapPath)`)? -/
def pathHitsTrap (path : String) : Bool :=
  trapsList.any (fun t => containsL (lcStr path) t.data)

/-- `Set.prototype.add` on the trapped-identity set. -/
def addId (ip : String) (l : List String) : List String :=
  if ip ∈ l then l else l ++ [ip]

/-- Increment the hit counter of trap `t`. -/
def bumpHit (t : String) (hits : List (String × Nat)) : List (String × Nat) :=
  hits.map (fun e => if e.1 = t then (e.1, e.2 + 1) else e)

/-- `HoneyPot.check`: the first trap contained in the lowercased path records
a hit and adds the identity to the trapped set; the call reports whether a
trap fired. -/
def hpCheck (st : HPState) (path ip : String) : Bool × HPState :=
  match trapsList.find? (fun t => containsL (lcStr path) t.data) with
  | some t => (true, ⟨addId ip st.trapped, bumpHit t st.hits⟩)
  | none => (false, st)

/-- `HoneyPot.isTrapped` for an identity. -/
def hpIsTrapped (st : HPState) (ip : String) : Bool :=
  st.trapped.contains ip

/-- Run a sequence of `check` calls (path, identity); `check` is the only
operation of the module that writes the trapped set, and nothing ever
removes from it. -/
def runHP (ops : List (String × String)) (st : HPState) : HPState :=
  ops.foldl (fun s p => (hpCheck s p.1 p.2).2) st

/-! ## Helper lemmas -/

theorem histFold_append (rs : List ReqRecord) (r : ReqRecord) :
    histFold (rs ++ [r]) = pushTrim (histFold rs) r := by
  simp [histFold, List.foldl_append]

theorem histFold_closed (rs : List ReqRecord) :
    histFold rs = rs.drop (rs.length - 100) := by
  induction rs using List.reverseRecOn with
  | nil => rfl
  | append_singleton rs r ih =>
    rw [histFold_append, ih, pushTrim]
    by_cases h : rs.length < 100
    · have h1 : rs.length - 100 = 0 := by omega
      have h2 : rs.length + 1 - 100 = 0 := by omega
      simp [h1, h2, List.length_append]
    · have h1 : (rs.drop (rs.length - 100)).length = 100 := by
        simp [List.length_drop]; omega
      have h2 : 100 < (rs.drop (rs.length - 100) ++ [r]).length := by
        simp [List.length_append, h1]
      simp only [h2, if_pos]
      have h3 : (rs.drop (rs.length - 100) ++ [r]).length - 100 = 1 := by
        simp [List.length_append, h1]
      rw [h3, List.drop_append_eq_append_drop, List.drop_drop, h1]
      have h4 : rs.length - 100 + 1 = rs.length + 1 - 100 := by omega
      rw [h4, List.drop_append_eq_append_drop]
      have e1 : (rs ++ [r]).length - 100 = rs.length + 1 - 100 := by
        simp [List.length_append]
      rw [e1]
      have e2 : rs.length + 1 - 100 - rs.length = 1 - 100 := by omega
      rw [e2]

theorem aStep_bounds (s : AState) (op : AOp)
    (h0 : 0 ≤ s.threatLevel) (h10 : s.threatLevel ≤ 10) :
    0 ≤ (aStep s op).threatLevel ∧ (aStep s op).threatLevel ≤ 10 := by
  cases op with
  | record k => simpa [aStep, recordMetric] using ⟨h0, h10⟩
  | tick =>
    simp only [aStep, adjust]
    split_ifs <;> simp_all <;> omega

theorem runA_aux (ops : List AOp) :
    ∀ s : AState, 0 ≤ s.threatLevel → s.threatLevel ≤ 10 →
      0 ≤ (ops.foldl aStep s).threatLevel ∧ (ops.foldl aStep s).threatLevel ≤ 10 := by
  induction ops with
  | nil => intro s h0 h10; exact ⟨h0, h10⟩
  | cons op rest ih =>
    intro s h0 h10
    have h := aStep_bounds s op h0 h10
    exact ih (aStep s op) h.1 h.2

theorem addId_mem (ip : String) (l : List String) : ip ∈ addId ip l := by
  simp only [addId]
  split_ifs with h
  · exact h
  · simp

theorem addId_mem_mono (ip ip0 : String) (l : List String) (h : ip ∈ l) :
    ip ∈ addId ip0 l := by
  simp only [addId]
  split_ifs with h2
  · exact h
  · simp [h]

theorem hpCheck_trapped_mono (st : HPState) (p ip0 ip : String)
    (h : ip ∈ st.trapped) : ip ∈ (hpCheck st p ip0).2.trapped := by
  simp only [hpCheck]
  cases hf : trapsList.find? (fun t => containsL (lcStr p) t.data) with
  | none => exact h
  | some t => exact addId_mem_mono ip ip0 st.trapped h

theorem runHP_trapped_mono (ops : List (String × String)) :
    ∀ (st : HPState) (ip : String), ip ∈ st.trapped → ip ∈ (runHP ops st).trapped := by
  induction ops with
  | nil => intro st ip h; exact h
  | cons op rest ih =>
    intro st ip h
    exact ih _ ip (hpCheck_trapped_mono st op.1 op.2 ip h)

/-! ## Claim theorems -/

/-- C1.  Identity extraction returns the first non-empty value in precedence
order: trimmed first forwarded-for entry, then the real-IP header, then the
peer address, then the literal `"unknown"`; in particular the forwarded-for
first entry wins when both proxy headers are present, and all-absent input
gives `"unknown"`. -/
theorem c1_identity_precedence :
    (∀ xff xrip remote : Option String,
      getIP xff xrip remote = firstNonEmpty [xff.map fwdFirst, xrip, remote] "unknown") ∧
    (∀ (f r : String) (rest : Option String), fwdFirst f ≠ "" →
      getIP (some f) (some r) rest = fwdFirst f) ∧
    getIP none none none = "unknown" := by
  refine ⟨?_, ?_, rfl⟩
  · intro xff xrip remote
    cases xff <;> cases xrip <;> cases remote <;>
      simp [getIP, firstNonEmpty, jsOr, nonEmptyVal, List.filterMap] <;>
      split_ifs <;> simp_all
  · intro f r rest h
    simp [getIP, jsOr, h]

/-- Witness for C1 at a concrete header set: the forwarded-for chain
`" 1.2.3.4 , 9.9.9.9"` beats the real-IP header `"8.8.8.8"`. -/
theorem c1_identity_precedence_witness :
    fwdFirst " 1.2.3.4 , 9.9.9.9" ≠ "" ∧
    getIP (some " 1.2.3.4 , 9.9.9.9") (some "8.8.8.8") (some "7.7.7.7") = fwdFirst " 1.2.3.4 , 9.9.9.9" :=
  ⟨by decide, c1_identity_precedence.2.1 " 1.2.3.4 , 9.9.9.9" "8.8.8.8" (some "7.7.7.7") (by decide)⟩

/-- C5.  The stored per-identity history is the suffix of the observed
request sequence: its length never exceeds 100, and after more than 100
observations it is exactly the 100 most recent records in insertion order. -/
theorem c5_bounded_history (rs : List ReqRecord) :
    histFold rs = rs.drop (rs.length - 100) ∧
    (histFold rs).length = min rs.length 100 ∧
    (histFold rs).length ≤ 100 ∧
    (100 < rs.length → (histFold rs).length = 100) := by
  have h := histFold_closed rs
  refine ⟨h, ?_, ?_, ?_⟩ <;> rw [h] <;> simp [List.length_drop] <;> omega

/-- Witness for C5 at a concrete run of 101 observations: the stored history
has length exactly 100. -/
theorem c5_bounded_history_witness :
    100 < ((List.range 101).map (fun i => (⟨i, "/p", "GET"⟩ : ReqRecord))).length ∧
    (histFold ((List.range 101).map (fun i => (⟨i, "/p", "GET"⟩ : ReqRecord)))).length = 100 :=
  ⟨by simp, (c5_bounded_history _).2.2.2 (by simp)⟩

/-- C6.  The global threat level stays an integer in `[0, 10]` in every
reachable state; a tick moves it by at most one (in a bounded state),
recording a metric never changes it, and the tick raises (capped) or lowers
(floored) the level exactly under the thresholded rate conditions. -/
theorem c6_threat_level_bounds :
    (∀ ops : List AOp, 0 ≤ (runA ops).threatLevel ∧ (runA ops).threatLevel ≤ 10) ∧
    (∀ s : AState, 0 ≤ s.threatLevel → s.threatLevel ≤ 10 →
      ((adjust s).threatLevel - s.threatLevel).natAbs ≤ 1) ∧
    (∀ (s : AState) (k : MetricKind), (recordMetric s k).threatLevel = s.threatLevel) ∧
    (∀ s : AState, s.metrics.total ≠ 0 →
      (s.metrics.total < 10 * s.metrics.blocked ∨ s.metrics.total < 5 * s.metrics.suspicious) →
      (adjust s).threatLevel = min 10 (s.threatLevel + 1)) ∧
    (∀ s : AState, s.metrics.total ≠ 0 →
      ¬(s.metrics.total < 10 * s.metrics.blocked ∨ s.metrics.total < 5 * s.metrics.suspicious) →
      100 * s.metrics.blocked < s.metrics.total → 20 * s.metrics.suspicious < s.metrics.total →
      (adjust s).threatLevel = max 0 (s.threatLevel - 1)) := by
  refine ⟨?_, ?_, ?_, ?_, ?_⟩
  · intro ops
    exact runA_aux ops aInit (by decide) (by decide)
  · intro s h0 h10
    simp only [adjust]
    split_ifs <;> simp_all <;> omega
  · intro s k
    simp [recordMetric]
  · intro s h1 h2
    simp [adjust, h1, h2]
  · intro s h1 h2 h3 h4
    simp [adjust, h1, h2, h3, h4]

/-- Witness for C6 at a concrete bounded state: one tick moves the level by
at most one. -/
theorem c6_threat_level_bounds_witness :
    (0 : Int) ≤ 5 ∧ (5 : Int) ≤ 10 ∧
    ((adjust ⟨5, ⟨4, 1, 0⟩⟩).threatLevel - 5).natAbs ≤ 1 :=
  ⟨by decide, by decide,
   c6_threat_level_bounds.2.1 ⟨5, ⟨4, 1, 0⟩⟩ (by decide) (by decide)⟩

/-- C10.  A request whose lowercased path contains a trap path marks the
identity as trapped, and the identity stays trapped across every further
sequence of checks: nothing in the module ever removes it. -/
theorem c10_trapped_forever (st : HPState) (path ip : String)
    (ops : List (String × String)) (h : pathHitsTrap path = true) :
    (hpCheck st path ip).1 = true ∧
    hpIsTrapped (runHP ops (hpCheck st path ip).2) ip = true := by
  have hfind : (trapsList.find? (fun t => containsL (lcStr path) t.data)).isSome := by
    rw [List.find?_isSome]
    simpa [pathHitsTrap, List.any_eq_true] using h
  cases hf : trapsList.find? (fun t => containsL (lcStr path) t.data) with
  | none => rw [hf] at hfind; simp at hfind
  | some t =>
    constructor
    · simp [hpCheck, hf]
    · have hmem : ip ∈ (hpCheck st path ip).2.trapped := by
        simp only [hpCheck, hf]
        exact addId_mem ip st.trapped
      have := runHP_trapped_mono ops (hpCheck st path ip).2 ip hmem
      simpa [hpIsTrapped] using this

/-- Witness for C10: the identity `"1.2.3.4"` hitting `/ADMIN/login` stays
trapped after two further unrelated checks. -/
theorem c10_trapped_forever_witness :
    pathHitsTrap "/ADMIN/login" = true ∧
    (hpCheck hpInit "/ADMIN/login" "1.2.3.4").1 = true ∧
    hpIsTrapped
      (runHP [("/hello", "9.9.9.9"), ("/world", "1.2.3.4")]
        (hpCheck hpInit "/ADMIN/login" "1.2.3.4").2) "1.2.3.4" = true := by
  have h := c10_trapped_forever hpInit "/ADMIN/login" "1.2.3.4"
    [("/hello", "9.9.9.9"), ("/world", "1.2.3.4")] (by decide)
  exact ⟨by decide, h.1, h.2⟩

/-- C3 counterexample.  Two assess calls for one identity, each scoring 8 via
a malicious user-agent: the persisted cumulative score reaches 16 > 10, yet
the verdict's `blocked` flag is false — `blocked` is computed from the
current call's score alone, refuting the claim as stated. -/
theorem c3_counterexample :
    (let sig : TSig := ⟨false, false, false, "sqlmap", true, true⟩
     let r1 := assess none sig
     let r2 := assess r1.2 sig
     10 < cumScore r2.2 ∧ r2.1.blocked = false) := by decide

/-- C3 amended.  The verdict's `blocked` flag is true exactly when the
current call's own score reaches the threshold 10; the verdict is
independent of the persisted per-identity record, which merely accumulates
the positive scores of successive calls. -/
theorem c3_blocked_is_per_call :
    (∀ (st : Option TRec) (sig : TSig),
      (assess st sig).1.blocked = true ↔ 10 ≤ (assess st sig).1.score) ∧
    (∀ (st : Option TRec) (sig : TSig), (assess st sig).1 = (assess none sig).1) ∧
    (∀ (st : Option TRec) (sig : TSig), 0 < assessScore sig →
      cumScore (assess st sig).2 = cumScore st + assessScore sig) ∧
    (∀ (st : Option TRec) (sig : TSig), assessScore sig = 0 →
      (assess st sig).2 = st) := by
  refine ⟨?_, ?_, ?_, ?_⟩
  · intro st sig
    simp [assess]
  · intro st sig
    simp [assess]
  · intro st sig h
    cases st <;> simp [assess, cumScore, h]
  · intro st sig h
    simp [assess, h]

/-- Witness for C3 (amended) at a concrete call: a score-8 call adds 8 to
the cumulative record. -/
theorem c3_blocked_is_per_call_witness :
    0 < assessScore ⟨false, false, false, "sqlmap", true, true⟩ ∧
    cumScore (assess none ⟨false, false, false, "sqlmap", true, true⟩).2 =
      cumScore none + assessScore ⟨false, false, false, "sqlmap", true, true⟩ :=
  ⟨by decide, c3_blocked_is_per_call.2.2.1 none ⟨false, false, false, "sqlmap", true, true⟩ (by decide)⟩

/-- C4 counterexample.  The user-agent `"Mozilla"` is non-empty and matches
no entry of the bot pattern list, yet the matcher classifies it as a bot
(its length is below 10), refuting "false for all other user-agents". -/
theorem c4_counterexample :
    matchBotUserAgent (some "Mozilla") = true ∧
    "Mozilla" ≠ "" ∧ matchesBotList "Mozilla" = false := by decide

/-- C4 amended.  The bot user-agent matcher returns true for an absent or
empty user-agent, for any user-agent matching the case-insensitive pattern
list, and also for any non-empty user-agent shorter than 10 characters; it
returns false exactly for the remaining user-agents (non-empty, length at
least 10, no pattern match). -/
theorem c4_bot_ua_matcher :
    matchBotUserAgent none = true ∧
    matchBotUserAgent (some "") = true ∧
    (∀ s : String, matchesBotList s = true → matchBotUserAgent (some s) = true) ∧
    (∀ s : String, s ≠ "" → s.length < 10 → matchBotUserAgent (some s) = true) ∧
    (∀ s : String, s ≠ "" → 10 ≤ s.length → matchesBotList s = false →
      matchBotUserAgent (some s) = false) := by
  refine ⟨by decide, by decide, ?_, ?_, ?_⟩
  · intro s h
    simp [matchBotUserAgent, h]
  · intro s h1 h2
    simp [matchBotUserAgent, h2]
  · intro s h1 h2 h3
    simp [matchBotUserAgent, h1, h3]
    omega

/-- Witness for C4 (amended) at concrete user-agents: `"Googlebot/2.1"` is
matched as a bot, an ordinary browser user-agent is not. -/
theorem c4_bot_ua_matcher_witness :
    matchesBotList "Googlebot/2.1" = true ∧
    matchBotUserAgent (some "Googlebot/2.1") = true ∧
    ("Mozilla/5.0 (Windows NT 10.0; Win64; x64)" ≠ "" ∧
     10 ≤ ("Mozilla/5.0 (Windows NT 10.0; Win64; x64)" : String).length ∧
     matchesBotList "Mozilla/5.0 (Windows NT 10.0; Win64; x64)" = false) ∧
    matchBotUserAgent (some "Mozilla/5.0 (Windows NT 10.0; Win64; x64)") = false :=
  ⟨by decide, c4_bot_ua_matcher.2.2.1 "Googlebot/2.1" (by decide),
   ⟨by decide, by decide, by decide⟩,
   c4_bot_ua_matcher.2.2.2.2 "Mozilla/5.0 (Windows NT 10.0; Win64; x64)"
     (by decide) (by decide) (by decide)⟩

/-- C9 counterexample.  A profile with exactly 20 distinct paths and 31
requests in the window: the claim says the scan-breadth predicate triggers,
but the source's strict comparison `uniquePaths.size > 20` leaves it false. -/
theorem c9_counterexample :
    (let reqs :=
       ((List.range 20).map (fun i => (⟨i, "/p" ++ toString i, "GET"⟩ : ReqRecord))) ++
         List.replicate 11 (⟨0, "/p0", "GET"⟩ : ReqRecord)
     let p : BProfile := ⟨reqs, some "Mozilla/5.0", true, true⟩
     (p.requests.map (fun r => r.path)).dedup.length = 20 ∧
       30 < p.requests.length ∧ scanningPred p = false) := by decide

/-- C9 amended.  The scan-breadth predicate triggers exactly when the number
of distinct paths in the window is strictly greater than 20 and the number
of requests is strictly greater than 30 (so exactly 20 distinct paths never
trigger it), and a triggered predicate contributes one point to the
suspicion score. -/
theorem c9_scan_breadth :
    (∀ p : BProfile, scanningPred p = true ↔
      (20 < (p.requests.map (fun r => r.path)).toFinset.card ∧ 30 < p.requests.length)) ∧
    (∀ p : BProfile, scanningPred p = true → 1 ≤ analyzeScore p) := by
  constructor
  · intro p
    rw [List.card_toFinset]
    simp [scanningPred]
  · intro p h
    simp only [analyzeScore, h, if_true]
    split_ifs <;> omega

/-- Witness for C9 (amended) at a concrete profile with 21 distinct paths
and 31 requests: the predicate triggers and the score is at least one. -/
theorem c9_scan_breadth_witness :
    scanningPred ⟨((List.range 21).map (fun i => (⟨i, "/p" ++ toString i, "GET"⟩ : ReqRecord))) ++
        List.replicate 10 (⟨0, "/p0", "GET"⟩ : ReqRecord), some "Mozilla/5.0", true, true⟩ = true ∧
    1 ≤ analyzeScore ⟨((List.range 21).map (fun i => (⟨i, "/p" ++ toString i, "GET"⟩ : ReqRecord))) ++
        List.replicate 10 (⟨0, "/p0", "GET"⟩ : ReqRecord), some "Mozilla/5.0", true, true⟩ :=
  ⟨by decide, c9_scan_breadth.2 _ (by decide)⟩

/-- C7.  Token bucket with capacity 10 and refill rate 10/s, starting full:
consuming 10 tokens succeeds and empties the bucket; 500 ms later the lazy
refill holds exactly 5 tokens, so consuming 5 succeeds while consuming any
amount above 5 is denied; the balance is capped at the capacity and reaches
it again only once a full second has elapsed. -/
theorem c7_token_bucket :
    (shaperCheck 10 none 0 10).1.allowed = true ∧
    (shaperCheck 10 none 0 10).2.tokens = 0 ∧
    refillTokens 10 (shaperCheck 10 none 0 10).2 500 = 5 ∧
    (shaperCheck 10 (some (shaperCheck 10 none 0 10).2) 500 5).1.allowed = true ∧
    (∀ c : ℚ, 5 < c →
      (shaperCheck 10 (some (shaperCheck 10 none 0 10).2) 500 c).1.allowed = false) ∧
    (∀ t : Nat, refillTokens 10 (shaperCheck 10 none 0 10).2 t ≤ 10) ∧
    (∀ t : Nat, refillTokens 10 (shaperCheck 10 none 0 10).2 t = 10 ↔ 1000 ≤ t) := by
  have hb : (shaperCheck 10 none 0 10).2 = ⟨0, 0⟩ := by
    simp [shaperCheck, refillTokens]
  have ht : refillTokens 10 (⟨0, 0⟩ : Bucket) 500 = 5 := by
    simp only [refillTokens]
    norm_num
  refine ⟨?_, ?_, ?_, ?_, ?_, ?_, ?_⟩
  · simp [shaperCheck, refillTokens]
  · rw [hb]
  · rw [hb]
    exact ht
  · rw [hb]
    simp [shaperCheck, ht]
  · intro c hc
    rw [hb]
    simp only [shaperCheck, Option.getD_some, ht]
    rw [if_pos hc]
  · intro t
    rw [hb]
    exact min_le_left _ _
  · intro t
    rw [hb]
    show min 10 ((0 : ℚ) + (((t - 0 : Nat) : ℚ) / 1000) * 10) = 10 ↔ 1000 ≤ t
    rw [Nat.sub_zero, zero_add, min_eq_left_iff, div_mul_eq_mul_div,
      le_div_iff₀ (by norm_num : (0 : ℚ) < 1000)]
    constructor
    · intro h
      have h2 : (1000 : ℚ) ≤ (t : ℚ) := by linarith
      exact_mod_cast h2
    · intro h
      have h2 : (1000 : ℚ) ≤ (t : ℚ) := by exact_mod_cast h
      linarith

/-- Witness for C7 at a concrete denied request: consuming 6 tokens 500 ms
after emptying the bucket is denied. -/
theorem c7_token_bucket_witness :
    (5 : ℚ) < 6 ∧
    (shaperCheck 10 (some (shaperCheck 10 none 0 10).2) 500 6).1.allowed = false :=
  ⟨by norm_num, c7_token_bucket.2.2.2.2.1 6 (by norm_num)⟩

theorem ddos_step_allow (reqs : List Nat) (now : Nat)
    (hfilt : ∀ t ∈ reqs, now - t < 60000) (hlen : reqs.length < 5) :
    ddosCheck dCfg5 ⟨reqs, none⟩ now =
      (⟨true, none, some (5 - (reqs.length + 1))⟩, ⟨reqs ++ [now], none⟩) := by
  have hf : reqs.filter (fun ts => decide (now - ts < dCfg5.windowMs)) = reqs :=
    List.filter_eq_self.mpr (fun a ha => by
      simp only [dCfg5, decide_eq_true_eq]
      exact hfilt a ha)
  simp only [ddosCheck, isBannedStep, hf]
  rw [if_neg (by simp only [dCfg5]; omega)]
  simp [dCfg5]

theorem ddos_step_ban (reqs : List Nat) (now : Nat)
    (hfilt : ∀ t ∈ reqs, now - t < 60000) (hlen : 5 ≤ reqs.length) :
    ddosCheck dCfg5 ⟨reqs, none⟩ now =
      (⟨false, some 3600, none⟩, ⟨reqs, some (now + 3600000)⟩) := by
  have hf : reqs.filter (fun ts => decide (now - ts < dCfg5.windowMs)) = reqs :=
    List.filter_eq_self.mpr (fun a ha => by
      simp only [dCfg5, decide_eq_true_eq]
      exact hfilt a ha)
  simp only [ddosCheck, isBannedStep, hf]
  rw [if_pos (by simp only [dCfg5]; omega)]
  simp [dCfg5]

theorem ddos_step_unbanned (reqs : List Nat) (u now : Nat) (h : u < now) :
    ddosCheck dCfg5 ⟨reqs, some u⟩ now = ddosCheck dCfg5 ⟨reqs, none⟩ now := by
  simp only [ddosCheck, isBannedStep, h, if_pos]

theorem ddos_step_allow_expired (reqs : List Nat) (now : Nat)
    (hfilt : ∀ t ∈ reqs, ¬(now - t < 60000)) :
    ddosCheck dCfg5 ⟨reqs, none⟩ now = (⟨true, none, some 4⟩, ⟨[now], none⟩) := by
  have hf : reqs.filter (fun ts => decide (now - ts < dCfg5.windowMs)) = [] :=
    List.filter_eq_nil_iff.mpr (fun a ha => by
      simp only [dCfg5, decide_eq_true_eq]
      exact hfilt a ha)
  simp only [ddosCheck, isBannedStep, hf]
  rw [if_neg (by simp only [dCfg5, List.length_nil]; omega)]
  simp [dCfg5]

/-- C2 counterexample.  With limit 5 and window 60000 ms from empty state:
five calls at time 0 are allowed and the sixth is denied, but the sixth also
bans the identity for the default 3600000 ms, so a call at time 61000 —
past the window — is still denied, refuting "after time advances past the
window ... a new check call returns allowed=true". -/
theorem c2_counterexample :
    (let p1 := ddosCheck dCfg5 dInit 0
     let p2 := ddosCheck dCfg5 p1.2 0
     let p3 := ddosCheck dCfg5 p2.2 0
     let p4 := ddosCheck dCfg5 p3.2 0
     let p5 := ddosCheck dCfg5 p4.2 0
     let p6 := ddosCheck dCfg5 p5.2 0
     let p7 := ddosCheck dCfg5 p6.2 61000
     p1.1.allowed = true ∧ p2.1.allowed = true ∧ p3.1.allowed = true ∧
     p4.1.allowed = true ∧ p5.1.allowed = true ∧
     p6.1.allowed = false ∧ p6.1.retryAfter = some 3600 ∧
     0 + 60000 ≤ 61000 ∧ p7.1.allowed = false) := by decide

/-- C2 amended.  With limit 5, window 60000 ms and the default ban duration
3600000 ms, for any single identity from empty state: five calls within one
window are all allowed; the sixth is denied with a positive retry-after of
3600 s and bans the identity until 3600000 ms after the sixth call; once
that ban has expired (not merely the window), a new call is allowed again. -/
theorem c2_limiter_with_ban (t1 t2 t3 t4 t5 t6 t7 : Nat)
    (h12 : t1 ≤ t2) (h23 : t2 ≤ t3) (h34 : t3 ≤ t4) (h45 : t4 ≤ t5) (h56 : t5 ≤ t6)
    (hwin : t6 < t1 + 60000) (h7 : t6 + 3600000 < t7) :
    (let p1 := ddosCheck dCfg5 dInit t1
     let p2 := ddosCheck dCfg5 p1.2 t2
     let p3 := ddosCheck dCfg5 p2.2 t3
     let p4 := ddosCheck dCfg5 p3.2 t4
     let p5 := ddosCheck dCfg5 p4.2 t5
     let p6 := ddosCheck dCfg5 p5.2 t6
     let p7 := ddosCheck dCfg5 p6.2 t7
     p1.1.allowed = true ∧ p2.1.allowed = true ∧ p3.1.allowed = true ∧
     p4.1.allowed = true ∧ p5.1.allowed = true ∧
     p6.1.allowed = false ∧ p6.1.retryAfter = some 3600 ∧ 0 < 3600 ∧
     p6.2.banned = some (t6 + 3600000) ∧ p7.1.allowed = true) := by
  have e1 : ddosCheck dCfg5 ⟨[], none⟩ t1 = (⟨true, none, some 4⟩, ⟨[t1], none⟩) :=
    ddos_step_allow [] t1 (by intro t ht; simp at ht) (by simp)
  have e2 : ddosCheck dCfg5 ⟨[t1], none⟩ t2 = (⟨true, none, some 3⟩, ⟨[t1, t2], none⟩) :=
    ddos_step_allow [t1] t2 (by intro t ht; simp at ht; omega) (by simp)
  have e3 : ddosCheck dCfg5 ⟨[t1, t2], none⟩ t3 =
      (⟨true, none, some 2⟩, ⟨[t1, t2, t3], none⟩) :=
    ddos_step_allow [t1, t2] t3 (by intro t ht; simp at ht; omega) (by simp)
  have e4 : ddosCheck dCfg5 ⟨[t1, t2, t3], none⟩ t4 =
      (⟨true, none, some 1⟩, ⟨[t1, t2, t3, t4], none⟩) :=
    ddos_step_allow [t1, t2, t3] t4 (by intro t ht; simp at ht; omega) (by simp)
  have e5 : ddosCheck dCfg5 ⟨[t1, t2, t3, t4], none⟩ t5 =
      (⟨true, none, some 0⟩, ⟨[t1, t2, t3, t4, t5], none⟩) :=
    ddos_step_allow [t1, t2, t3, t4] t5 (by intro t ht; simp at ht; omega) (by simp)
  have e6 : ddosCheck dCfg5 ⟨[t1, t2, t3, t4, t5], none⟩ t6 =
      (⟨false, some 3600, none⟩, ⟨[t1, t2, t3, t4, t5], some (t6 + 3600000)⟩) :=
    ddos_step_ban [t1, t2, t3, t4, t5] t6 (by intro t ht; simp at ht; omega) (by simp)
  have e7a : ddosCheck dCfg5 ⟨[t1, t2, t3, t4, t5], some (t6 + 3600000)⟩ t7 =
      ddosCheck dCfg5 ⟨[t1, t2, t3, t4, t5], none⟩ t7 :=
    ddos_step_unbanned _ _ _ (by omega)
  have e7b : ddosCheck dCfg5 ⟨[t1, t2, t3, t4, t5], none⟩ t7 =
      (⟨true, none, some 4⟩, ⟨[t7], none⟩) :=
    ddos_step_allow_expired [t1, t2, t3, t4, t5] t7 (by intro t ht; simp at ht; omega)
  simp only [dInit, e1, e2, e3, e4, e5, e6, e7a, e7b]
  simp

/-- Witness for C2 (amended) at concrete call times 0,0,0,0,0,0 and a
seventh call after the ban expiry. -/
theorem c2_limiter_with_ban_witness :
    ((0 : Nat) ≤ 0 ∧ (0 : Nat) < 0 + 60000 ∧ 0 + 3600000 < 3600001) ∧
    (let p1 := ddosCheck dCfg5 dInit 0
     let p2 := ddosCheck dCfg5 p1.2 0
     let p3 := ddosCheck dCfg5 p2.2 0
     let p4 := ddosCheck dCfg5 p3.2 0
     let p5 := ddosCheck dCfg5 p4.2 0
     let p6 := ddosCheck dCfg5 p5.2 0
     let p7 := ddosCheck dCfg5 p6.2 3600001
     p1.1.allowed = true ∧ p2.1.allowed = true ∧ p3.1.allowed = true ∧
     p4.1.allowed = true ∧ p5.1.allowed = true ∧
     p6.1.allowed = false ∧ p6.1.retryAfter = some 3600 ∧ 0 < 3600 ∧
     p6.2.banned = some (0 + 3600000) ∧ p7.1.allowed = true) :=
  ⟨⟨by decide, by decide, by decide⟩,
   c2_limiter_with_ban 0 0 0 0 0 0 3600001 (by decide) (by decide) (by decide)
     (by decide) (by decide) (by decide) (by decide)⟩

/-- C8 (code-bug evidence).  From a freshly constructed scanner, scanning
the payload `"<script>alert(1)</script>"` is detected with an `xss` finding
— the behaviour the claim (and the spec's pure, content-hash-cached
`scanPayload`) describes.  But on one long-lived scanner instance, scanning
`"A".repeat(101) ++ payload` first leaves the shared `/g` script-tag
regex's `lastIndex` at 126, so a following scan of the 25-character payload
alone starts past its end, every other signature fails, and the scan
returns `malicious = false` with no findings — the statefulness of
`pattern.test` on the `/g`-flagged signature regexes contradicts the
claim's "any string containing the payload yields malicious=true". -/
theorem c8_statefulness_divergence :
    (let payload : String := "<script>alert(1)</script>"
     let long : String := String.mk (List.replicate 101 'A') ++ payload
     let fresh := scanC initScanSt payload 0
     let step1 := scanC initScanSt long 0
     let step2 := scanC step1.2 payload 1
     fresh.1.malicious = true ∧
     (∃ f ∈ fresh.1.findings, f.1 = "xss") ∧
     step1.1.malicious = true ∧
     step2.1.malicious = false ∧ step2.1.findings = []) := by decide
